import Mathlib

/-!
Shallow embedding of the elogind manager core (logind-core.c): entity
registries, the seat-device hot-plug handler, idle-hint aggregation,
kill policy, bus-name watches, process-to-session resolution, the
VT-busy probe and the docking/display heuristic.

Hashmaps are modelled as association lists (first match wins), sets as
lists, and the C `int` return-code plus out-parameter convention as
`Except Int` or explicit `Int × _` pairs.  Allocation failure
(`-ENOMEM` from `*_new`) is modelled by an explicit `alloc : Bool`
oracle passed to the operations that allocate.
-/

namespace Logind

def ENOMEM : Int := 12
def EINVAL : Int := 22

/-- Monotonic/realtime clock pair (`dual_timestamp`). -/
structure DualTimestamp where
  realtime : Nat
  monotonic : Nat
deriving Repr, DecidableEq

def DUAL_TIMESTAMP_NULL : DualTimestamp := ⟨0, 0⟩

/-- Device record: sysfs path, master flag, weak seat back-reference. -/
structure Device where
  sysfs : String
  master : Bool
  seat : Option String
deriving Repr, DecidableEq

/-- Seat record: id, attached-device list, started flag. -/
structure Seat where
  id : String
  devices : List String
  started : Bool
deriving Repr, DecidableEq

/-- Session record: id, owning user (by uid), optional controller bus
peer, and the session idle report (return code and timestamp) that
`session_get_idle_hint` yields. -/
structure Session where
  id : String
  user : Nat
  controller : Option String
  idle_rc : Int
  idle_ts : DualTimestamp
deriving Repr, DecidableEq

/-- User record keyed by uid. -/
structure User where
  uid : Nat
  gid : Nat
  name : String
deriving Repr, DecidableEq

/-- Inhibitor record: `what` is a bitset, `mode` an enum value. -/
structure Inhibitor where
  id : String
  what : Nat
  mode : Nat
deriving Repr, DecidableEq

/-- Button record. -/
structure Button where
  name : String
  seatId : String
  docked : Bool
deriving Repr, DecidableEq

/-- The manager state: the entity registries plus configuration. -/
structure Manager where
  devices : List (String × Device)
  seats : List (String × Seat)
  sessions : List (String × Session)
  users : List (Nat × User)
  inhibitors : List (String × Inhibitor)
  buttons : List (String × Button)
  busnames : List String
  seat_gc_queue : List String
  kill_user_processes : Bool
  kill_exclude_users : List String
  kill_only_users : List String
deriving Repr, DecidableEq

/-! ### Container model (hashmap / set / strv) -/

def hashmap_get {κ α : Type} [BEq κ] (l : List (κ × α)) (k : κ) : Option α :=
  List.lookup k l

def hashmap_insert {κ α : Type} (l : List (κ × α)) (k : κ) (v : α) :
    List (κ × α) :=
  (k, v) :: l

def hashmap_set {κ α : Type} [BEq κ] (l : List (κ × α)) (k : κ) (v : α) :
    List (κ × α) :=
  l.map (fun p => bif p.1 == k then (p.1, v) else p)

def hashmap_remove {κ α : Type} [BEq κ] (l : List (κ × α)) (k : κ) :
    List (κ × α) :=
  l.filter (fun p => !(p.1 == k))

def set_get (l : List String) (n : String) : Bool := l.contains n

def strv_contains (l : List String) (s : String) : Bool := l.contains s

def strv_isempty (l : List String) : Bool := l.isEmpty

/-! ### Constructors of the entity records (external to logind-core.c) -/

/-- Modelled from the spec: `device_new` (logind-device.c, not under
src/) allocates a device with the given sysfs path and master flag and
no seat back-reference; in this model the caller inserts it into the
registry. -/
def device_new (sysfs : String) (master : Bool) : Device :=
  { sysfs := sysfs, master := master, seat := none }

/-- Modelled from the spec: `seat_new` (logind-seat.c, not under src/)
allocates a seat with the given id, no devices, not yet started. -/
def seat_new (id : String) : Seat :=
  { id := id, devices := [], started := false }

/-- Modelled from the spec: `session_new` (logind-session.c, not under
src/) allocates a session with the given id and default attributes. -/
def session_new (id : String) : Session :=
  { id := id, user := 0, controller := none, idle_rc := 0,
    idle_ts := DUAL_TIMESTAMP_NULL }

/-- Modelled from the spec: `user_new` (logind-user.c, not under src/)
allocates a user record with the given uid, gid and name. -/
def user_new (uid gid : Nat) (name : String) : User :=
  { uid := uid, gid := gid, name := name }

/-- Modelled from the spec: `inhibitor_new` (logind-inhibit.c, not
under src/) allocates an inhibitor with the given id. -/
def inhibitor_new (id : String) : Inhibitor :=
  { id := id, what := 0, mode := 0 }

/-- Modelled from the spec: `button_new` (logind-button.c, not under
src/) allocates a button with the given name. -/
def button_new (name : String) : Button :=
  { name := name, seatId := "", docked := false }

/-! ### Registry upserts (manager_add_*) -/

/-- Embeds `manager_add_device`: look up by sysfs path; if present OR-fold the
master flag in place; otherwise allocate (may fail with `-ENOMEM`) and
insert.  Returns the stored record. -/
def manager_add_device (m : Manager) (alloc : Bool) (sysfs : String)
    (master : Bool) : Except Int (Manager × Device) :=
  match hashmap_get m.devices sysfs with
  | some d =>
      let d2 := { d with master := d.master || master }
      .ok ({ m with devices := hashmap_set m.devices sysfs d2 }, d2)
  | none =>
      if alloc then
        let d := device_new sysfs master
        .ok ({ m with devices := hashmap_insert m.devices sysfs d }, d)
      else
        .error (-ENOMEM)

/-- Embeds `manager_add_seat`: look up by id; allocate and insert when absent. -/
def manager_add_seat (m : Manager) (alloc : Bool) (id : String) :
    Except Int (Manager × Seat) :=
  match hashmap_get m.seats id with
  | some s => .ok (m, s)
  | none =>
      if alloc then
        let s := seat_new id
        .ok ({ m with seats := hashmap_insert m.seats id s }, s)
      else
        .error (-ENOMEM)

/-- Embeds `manager_add_session`: look up by id; allocate and insert when absent. -/
def manager_add_session (m : Manager) (alloc : Bool) (id : String) :
    Except Int (Manager × Session) :=
  match hashmap_get m.sessions id with
  | some s => .ok (m, s)
  | none =>
      if alloc then
        let s := session_new id
        .ok ({ m with sessions := hashmap_insert m.sessions id s }, s)
      else
        .error (-ENOMEM)

/-- Embeds `manager_add_user`: look up by uid; allocate and insert when
absent; gid and name are used only on creation. -/
def manager_add_user (m : Manager) (alloc : Bool) (uid gid : Nat)
    (name : String) : Except Int (Manager × User) :=
  match hashmap_get m.users uid with
  | some u => .ok (m, u)
  | none =>
      if alloc then
        let u := user_new uid gid name
        .ok ({ m with users := hashmap_insert m.users uid u }, u)
      else
        .error (-ENOMEM)

/-- Embeds `manager_add_inhibitor`: look up by id; allocate and insert when absent. -/
def manager_add_inhibitor (m : Manager) (alloc : Bool) (id : String) :
    Except Int (Manager × Inhibitor) :=
  match hashmap_get m.inhibitors id with
  | some i => .ok (m, i)
  | none =>
      if alloc then
        let i := inhibitor_new id
        .ok ({ m with inhibitors := hashmap_insert m.inhibitors id i }, i)
      else
        .error (-ENOMEM)

/-- Embeds `manager_add_button`: look up by name; allocate and insert when absent. -/
def manager_add_button (m : Manager) (alloc : Bool) (name : String) :
    Except Int (Manager × Button) :=
  match hashmap_get m.buttons name with
  | some b => .ok (m, b)
  | none =>
      if alloc then
        let b := button_new name
        .ok ({ m with buttons := hashmap_insert m.buttons name b }, b)
      else
        .error (-ENOMEM)

/-! ### Bus-name watch set -/

/-- Modelled from the spec: `session_is_controller` (logind-session.c,
not under src/) tests whether the session's controller bus peer equals
the given name. -/
def session_is_controller (s : Session) (name : String) : Bool :=
  s.controller == some name

/-- Embeds `manager_watch_busname`: idempotent insertion into the busname set;
the copy of the name may fail to allocate. -/
def manager_watch_busname (m : Manager) (alloc : Bool) (name : String) :
    Int × Manager :=
  if set_get m.busnames name then (0, m)
  else if alloc then (0, { m with busnames := name :: m.busnames })
  else (-ENOMEM, m)

/-- Embeds `manager_drop_busname`: keep the watch if any session still owns a
controller under this name, else remove it from the set. -/
def manager_drop_busname (m : Manager) (name : String) : Manager :=
  if m.sessions.any (fun p => session_is_controller p.2 name) then m
  else { m with busnames := m.busnames.filter (fun x => !(x == name)) }

/-! ### Seat-device hot-plug handling -/

/-- Abstract udev device event. -/
structure UdevDevice where
  action : Option String
  syspath : String
  sysname : String
  properties : List (String × String)
  tags : List String
deriving Repr, DecidableEq

def udev_device_get_property_value (d : UdevDevice) (k : String) :
    Option String :=
  List.lookup k d.properties

def udev_device_has_tag (d : UdevDevice) (t : String) : Bool :=
  d.tags.contains t

/-- The seat id resolved from `ID_SEAT`; empty or absent means `seat0`. -/
def resolve_seat_name (d : UdevDevice) : String :=
  match udev_device_get_property_value d "ID_SEAT" with
  | none => "seat0"
  | some s => if s.isEmpty then "seat0" else s

/-- Modelled from the spec: the seat-name grammar (seat_name_is_valid,
not under src/) -- alphanumeric plus dash, leading letter, bounded
length. -/
def seat_name_is_valid (s : String) : Bool :=
  0 < s.length && s.length ≤ 255 &&
    (s.data.head?.elim false Char.isAlpha) &&
    s.data.all (fun c => c.isAlphanum || c == '-')

/-- Modelled from the spec: `device_free` (logind-device.c, not under
src/) removes the device from the registry and detaches it from its
seat's device list. -/
def device_free (m : Manager) (d : Device) : Manager :=
  let m1 := { m with devices := hashmap_remove m.devices d.sysfs }
  match d.seat with
  | none => m1
  | some sid =>
      match hashmap_get m1.seats sid with
      | none => m1
      | some s =>
          let s2 := { s with devices :=
              s.devices.filter (fun x => !(x == d.sysfs)) }
          { m1 with seats := hashmap_set m1.seats sid s2 }

/-- Modelled from the spec: `device_attach` (logind-device.c, not under
src/) sets the device's seat back-reference and appends it to the
seat's device list. -/
def device_attach (m : Manager) (d : Device) (sid : String) : Manager :=
  let d2 := { d with seat := some sid }
  let m1 := { m with devices := hashmap_set m.devices d.sysfs d2 }
  match hashmap_get m1.seats sid with
  | none => m1
  | some s =>
      let s2 := { s with devices := s.devices ++ [d.sysfs] }
      { m1 with seats := hashmap_set m1.seats sid s2 }

/-- Modelled from the spec: `seat_start` (logind-seat.c, not under
src/) marks the seat started. -/
def seat_start (m : Manager) (sid : String) : Manager :=
  match hashmap_get m.seats sid with
  | none => m
  | some s =>
      { m with seats := hashmap_set m.seats sid { s with started := true } }

/-- Modelled from the spec: `seat_add_to_gc_queue` (logind-seat.c, not
under src/) enqueues the seat (when there is one) for garbage
collection. -/
def seat_add_to_gc_queue (m : Manager) (sid : Option String) : Manager :=
  match sid with
  | none => m
  | some s =>
      if m.seat_gc_queue.contains s then m
      else { m with seat_gc_queue := s :: m.seat_gc_queue }

/-- Embeds `manager_process_seat_device`: on `remove`, detach and free the
device if known; otherwise resolve the seat name, drop invalid names
and non-master devices on unknown seats, upsert the device, upsert the
seat if needed (rolling back a freshly created device when seat
creation fails), attach and start.  Returns the C return code together
with the final manager state. -/
def manager_process_seat_device (m : Manager) (devAlloc seatAlloc : Bool)
    (d : UdevDevice) : Int × Manager :=
  if d.action == some "remove" then
    match hashmap_get m.devices d.syspath with
    | none => (0, m)
    | some device =>
        let m1 := seat_add_to_gc_queue m device.seat
        (0, device_free m1 device)
  else
    let sn := resolve_seat_name d
    if !(seat_name_is_valid sn) then (0, m)
    else
      let seat0 := hashmap_get m.seats sn
      let master := udev_device_has_tag d "master-of-seat"
      if !master && seat0.isNone then (0, m)
      else
        match manager_add_device m devAlloc d.syspath master with
        | .error e => (e, m)
        | .ok (m1, device) =>
            match seat0 with
            | some _ => (0, seat_start (device_attach m1 device sn) sn)
            | none =>
                match manager_add_seat m1 seatAlloc sn with
                | .error e =>
                    if device.seat.isNone then (e, device_free m1 device)
                    else (e, m1)
                | .ok (m2, _) =>
                    (0, seat_start (device_attach m2 device sn) sn)

/-! ### Process-to-session resolution -/

/-- Embeds `manager_get_session_by_pid`: negative on invalid pid, 0 when the
cgroup classifier fails or the session id is unknown, 1 plus the
session on success.  The classifier `cg_pid_get_session` is external
(cgroup-util); it is passed in as a function from pid to either a
negative error or a session id. -/
def manager_get_session_by_pid (m : Manager) (cg : Int → Except Int String)
    (pid : Int) : Int × Option Session :=
  if pid < 1 then (-EINVAL, none)
  else
    match cg pid with
    | .error _ => (0, none)
    | .ok name =>
        match hashmap_get m.sessions name with
        | none => (0, none)
        | some s => (1, some s)

/-- Embeds `manager_get_user_by_pid`: compose the session lookup; on success
yield the session's user. -/
def manager_get_user_by_pid (m : Manager) (cg : Int → Except Int String)
    (pid : Int) : Int × Option Nat :=
  let r := manager_get_session_by_pid m cg pid
  if r.1 ≤ 0 then (r.1, none)
  else (1, r.2.map Session.user)

/-! ### Idle-hint aggregation -/

def INHIBIT_SHUTDOWN : Nat := 1
def INHIBIT_SLEEP : Nat := 2
def INHIBIT_IDLE : Nat := 4
def INHIBIT_BLOCK : Nat := 0
def INHIBIT_DELAY : Nat := 1

/-- Modelled from the spec: `manager_is_inhibited` (logind-inhibit.c,
not under src/) answers whether some inhibitor's `what` bitset meets
the query and its mode matches. -/
def manager_is_inhibited (m : Manager) (w mode : Nat) : Bool :=
  m.inhibitors.any (fun p => (p.2.what &&& w) != 0 && p.2.mode == mode)

/-- Modelled from the spec: `session_get_idle_hint` (logind-session.c,
not under src/) reports the session's idle state: a negative return
code on failure, 0 for busy, positive for idle, plus a timestamp. -/
def session_get_idle_hint (s : Session) : Int × DualTimestamp :=
  (s.idle_rc, s.idle_ts)

/-- One loop-body step of `manager_get_idle_hint`: update the
accumulated `(idle_hint, ts)` with a session report `(ih, k)` that did
not fail. -/
def idle_step (idle_hint : Bool) (ts : DualTimestamp) (ih : Int)
    (k : DualTimestamp) : Bool × DualTimestamp :=
  if ih == 0 then
    if !idle_hint then
      if k.monotonic < ts.monotonic then (idle_hint, k) else (idle_hint, ts)
    else (false, k)
  else
    if idle_hint then
      if k.monotonic > ts.monotonic then (idle_hint, k) else (idle_hint, ts)
    else (idle_hint, ts)

/-- The session fold of `manager_get_idle_hint`; a failing session
report aborts with its negative code (the out-parameter stays
unwritten, hence the error branch carries no timestamp). -/
def manager_get_idle_hint_loop :
    List Session → Bool → DualTimestamp → Except Int (Bool × DualTimestamp)
  | [], idle_hint, ts => .ok (idle_hint, ts)
  | s :: rest, idle_hint, ts =>
      let r := session_get_idle_hint s
      if r.1 < 0 then .error r.1
      else
        let p := idle_step idle_hint ts r.1 r.2
        manager_get_idle_hint_loop rest p.1 p.2

/-- Embeds `manager_get_idle_hint`: start from the negated idle-block
inhibition and the null timestamp, fold all sessions. -/
def manager_get_idle_hint (m : Manager) : Except Int (Bool × DualTimestamp) :=
  let idle_hint := !(manager_is_inhibited m INHIBIT_IDLE INHIBIT_BLOCK)
  manager_get_idle_hint_loop (m.sessions.map (·.2)) idle_hint
    DUAL_TIMESTAMP_NULL

/-! ### Kill policy -/

/-- Embeds `manager_shall_kill`: the logout-time kill decision. -/
def manager_shall_kill (m : Manager) (user : String) : Bool :=
  if !m.kill_user_processes then false
  else if strv_contains m.kill_exclude_users user then false
  else if strv_isempty m.kill_only_users then true
  else strv_contains m.kill_only_users user

/-! ### VT-busy probe -/

/-- The environment of `vt_is_busy`: outcome of opening `/dev/tty1`
and of the `VT_GETSTATE` ioctl (errors carry the negative errno that
the function returns, success of the ioctl carries `v_state`). -/
structure VTEnv where
  open_tty1 : Except Int Unit
  vt_getstate : Except Int Nat
deriving Repr

/-- Embeds `vt_is_busy`: open the first VT, fetch the VT state, and test bit
`vtnr` of the in-use mask. -/
def vt_is_busy (env : VTEnv) (vtnr : Nat) : Int :=
  match env.open_tty1 with
  | .error e => e
  | .ok _ =>
      match env.vt_getstate with
      | .error e => e
      | .ok v_state => if (v_state &&& (1 <<< vtnr)) != 0 then 1 else 0

/-! ### Docking / display heuristic -/

/-- Embeds `manager_is_docked`: any button reporting docked. -/
def manager_is_docked (m : Manager) : Bool :=
  m.buttons.any (fun p => p.2.docked)

/-- A DRM sysfs entry as seen by `manager_count_displays`: the parent's
subsystem (none when there is no parent or it has no subsystem) and the
`status` sysattr. -/
structure DrmDev where
  parentSubsystem : Option String
  status : Option String
deriving Repr, DecidableEq

/-- The enumeration loop of `manager_count_displays`: a `none` entry is
a failed `udev_device_new_from_syspath` (`-ENOMEM`); an entry counts
when its parent is in the `drm` subsystem and its status is not exactly
`disconnected`. -/
def count_displays_loop : List (Option DrmDev) → Int → Int
  | [], n => n
  | none :: _, _ => -ENOMEM
  | some d :: rest, n =>
      if !(d.parentSubsystem == some "drm") then count_displays_loop rest n
      else if d.status == some "disconnected" then count_displays_loop rest n
      else count_displays_loop rest (n + 1)

/-- Embeds `manager_count_displays`: the udev enumeration either fails with a
negative code or yields the list of DRM sysfs entries. -/
def manager_count_displays (enum : Except Int (List (Option DrmDev))) : Int :=
  match enum with
  | .error e => e
  | .ok items => count_displays_loop items 0

/-- Embeds `manager_is_docked_or_multiple_displays`: docked, or more than one
connected display; enumeration errors only get logged. -/
def manager_is_docked_or_multiple_displays (m : Manager)
    (enum : Except Int (List (Option DrmDev))) : Bool :=
  if manager_is_docked m then true
  else
    let n := manager_count_displays enum
    if n < 0 then false
    else if n > 1 then true
    else false

/-! ### A repeated-upsert harness for the device registry -/

/-- Run a sequence of `manager_add_device` calls for one sysfs path
with the given master arguments (allocation succeeding). -/
def add_device_seq (m : Manager) (sysfs : String) : List Bool → Manager
  | [] => m
  | b :: bs =>
      match manager_add_device m true sysfs b with
      | .ok (m1, _) => add_device_seq m1 sysfs bs
      | .error _ => m

/-! ### Container lemmas -/

theorem beq_flip_false {κ : Type} [BEq κ] [LawfulBEq κ] {k k2 : κ}
    (h : (k == k2) = false) : (k2 == k) = false := by
  rw [beq_eq_false_iff_ne] at h ⊢
  exact fun e => h e.symm

theorem hashmap_get_insert_self {κ α : Type} [BEq κ] [LawfulBEq κ]
    (l : List (κ × α)) (k : κ) (v : α) :
    hashmap_get (hashmap_insert l k v) k = some v := by
  simp [hashmap_get, hashmap_insert, List.lookup]

theorem hashmap_get_set_self {κ α : Type} [BEq κ] [LawfulBEq κ]
    (l : List (κ × α)) (k : κ) (v d : α) (h : hashmap_get l k = some d) :
    hashmap_get (hashmap_set l k v) k = some v := by
  induction l with
  | nil => simp [hashmap_get, List.lookup] at h
  | cons p t ih =>
      obtain ⟨k2, a⟩ := p
      cases hb : (k == k2) with
      | true =>
          have hb2 : (k2 == k) = true := by
            have := eq_of_beq hb
            subst this
            exact hb
          simp [hashmap_get, hashmap_set, List.lookup, hb, hb2]
      | false =>
          have hb2 := beq_flip_false hb
          simp only [hashmap_get, List.lookup, hb] at h
          simp only [hashmap_get, hashmap_set, List.map, List.lookup, hb2,
            Bool.cond_eq_if, if_false] at ih ⊢
          simp only [hb]
          exact ih h

theorem hashmap_remove_of_get_none {κ α : Type} [BEq κ] [LawfulBEq κ]
    (l : List (κ × α)) (k : κ) (h : hashmap_get l k = none) :
    hashmap_remove l k = l := by
  induction l with
  | nil => rfl
  | cons p t ih =>
      obtain ⟨k2, a⟩ := p
      cases hb : (k == k2) with
      | true => simp [hashmap_get, List.lookup, hb] at h
      | false =>
          have hb2 := beq_flip_false hb
          simp only [hashmap_get, List.lookup, hb] at h
          have ht := ih h
          simp only [hashmap_remove] at ht
          simp [hashmap_remove, List.filter_cons, hb2, ht]

/-! ### Lemmas about the registry upserts -/

/-- After a successful `manager_add_device`, the returned record is the
one stored under the key. -/
theorem manager_add_device_get (m : Manager) (a : Bool) (sysfs : String)
    (b : Bool) (m1 : Manager) (d1 : Device)
    (h : manager_add_device m a sysfs b = .ok (m1, d1)) :
    hashmap_get m1.devices sysfs = some d1 := by
  unfold manager_add_device at h
  cases hg : hashmap_get m.devices sysfs with
  | some d =>
      rw [hg] at h
      simp only [Except.ok.injEq, Prod.mk.injEq] at h
      obtain ⟨h1, h2⟩ := h
      rw [← h1, ← h2]
      exact hashmap_get_set_self m.devices sysfs _ d hg
  | none =>
      rw [hg] at h
      cases ha : a with
      | false => rw [ha] at h; simp at h
      | true =>
          rw [ha] at h
          simp only [if_true, Except.ok.injEq, Prod.mk.injEq] at h
          obtain ⟨h1, h2⟩ := h
          rw [← h1, ← h2]
          exact hashmap_get_insert_self m.devices sysfs _

/-- A `manager_add_device` on a state that already stores the key
OR-folds the master flag into the stored record and returns it. -/
theorem manager_add_device_get_some (m : Manager) (a : Bool)
    (sysfs : String) (b : Bool) (d : Device)
    (h : hashmap_get m.devices sysfs = some d) :
    manager_add_device m a sysfs b =
      .ok ({ m with devices :=
              hashmap_set m.devices sysfs { d with master := d.master || b } },
           { d with master := d.master || b }) := by
  unfold manager_add_device
  rw [h]

/-- The master flag stored after a run of device upserts for a present
key is the OR-fold of the sequence onto the stored flag; seat and sysfs
are untouched. -/
theorem add_device_seq_get_some (sysfs : String) (bs : List Bool) :
    ∀ (m : Manager) (d : Device), hashmap_get m.devices sysfs = some d →
      hashmap_get (add_device_seq m sysfs bs).devices sysfs =
        some { d with master := bs.foldl (· || ·) d.master } := by
  induction bs with
  | nil => intro m d h; simpa [add_device_seq] using h
  | cons b bs ih =>
      intro m d h
      have hstep := manager_add_device_get_some m true sysfs b d h
      simp only [add_device_seq, hstep]
      have hget : hashmap_get
          (hashmap_set m.devices sysfs { d with master := d.master || b })
          sysfs = some { d with master := d.master || b } :=
        hashmap_get_set_self m.devices sysfs _ d h
      have hrec := ih
        { m with devices :=
            hashmap_set m.devices sysfs { d with master := d.master || b } }
        { d with master := d.master || b } hget
      simpa using hrec

theorem manager_add_seat_get (m : Manager) (a : Bool) (id : String)
    (m1 : Manager) (s : Seat) (h : manager_add_seat m a id = .ok (m1, s)) :
    hashmap_get m1.seats id = some s := by
  unfold manager_add_seat at h
  cases hg : hashmap_get m.seats id with
  | some s0 =>
      rw [hg] at h
      simp only [Except.ok.injEq, Prod.mk.injEq] at h
      obtain ⟨h1, h2⟩ := h
      rw [← h1, ← h2]
      exact hg
  | none =>
      rw [hg] at h
      cases ha : a with
      | false => rw [ha] at h; simp at h
      | true =>
          rw [ha] at h
          simp only [if_true, Except.ok.injEq, Prod.mk.injEq] at h
          obtain ⟨h1, h2⟩ := h
          rw [← h1, ← h2]
          exact hashmap_get_insert_self m.seats id _

theorem manager_add_session_get (m : Manager) (a : Bool) (id : String)
    (m1 : Manager) (s : Session)
    (h : manager_add_session m a id = .ok (m1, s)) :
    hashmap_get m1.sessions id = some s := by
  unfold manager_add_session at h
  cases hg : hashmap_get m.sessions id with
  | some s0 =>
      rw [hg] at h
      simp only [Except.ok.injEq, Prod.mk.injEq] at h
      obtain ⟨h1, h2⟩ := h
      rw [← h1, ← h2]
      exact hg
  | none =>
      rw [hg] at h
      cases ha : a with
      | false => rw [ha] at h; simp at h
      | true =>
          rw [ha] at h
          simp only [if_true, Except.ok.injEq, Prod.mk.injEq] at h
          obtain ⟨h1, h2⟩ := h
          rw [← h1, ← h2]
          exact hashmap_get_insert_self m.sessions id _

theorem manager_add_user_get (m : Manager) (a : Bool) (uid gid : Nat)
    (name : String) (m1 : Manager) (u : User)
    (h : manager_add_user m a uid gid name = .ok (m1, u)) :
    hashmap_get m1.users uid = some u := by
  unfold manager_add_user at h
  cases hg : hashmap_get m.users uid with
  | some u0 =>
      rw [hg] at h
      simp only [Except.ok.injEq, Prod.mk.injEq] at h
      obtain ⟨h1, h2⟩ := h
      rw [← h1, ← h2]
      exact hg
  | none =>
      rw [hg] at h
      cases ha : a with
      | false => rw [ha] at h; simp at h
      | true =>
          rw [ha] at h
          simp only [if_true, Except.ok.injEq, Prod.mk.injEq] at h
          obtain ⟨h1, h2⟩ := h
          rw [← h1, ← h2]
          exact hashmap_get_insert_self m.users uid _

theorem manager_add_inhibitor_get (m : Manager) (a : Bool) (id : String)
    (m1 : Manager) (i : Inhibitor)
    (h : manager_add_inhibitor m a id = .ok (m1, i)) :
    hashmap_get m1.inhibitors id = some i := by
  unfold manager_add_inhibitor at h
  cases hg : hashmap_get m.inhibitors id with
  | some i0 =>
      rw [hg] at h
      simp only [Except.ok.injEq, Prod.mk.injEq] at h
      obtain ⟨h1, h2⟩ := h
      rw [← h1, ← h2]
      exact hg
  | none =>
      rw [hg] at h
      cases ha : a with
      | false => rw [ha] at h; simp at h
      | true =>
          rw [ha] at h
          simp only [if_true, Except.ok.injEq, Prod.mk.injEq] at h
          obtain ⟨h1, h2⟩ := h
          rw [← h1, ← h2]
          exact hashmap_get_insert_self m.inhibitors id _

theorem manager_add_button_get (m : Manager) (a : Bool) (name : String)
    (m1 : Manager) (b : Button)
    (h : manager_add_button m a name = .ok (m1, b)) :
    hashmap_get m1.buttons name = some b := by
  unfold manager_add_button at h
  cases hg : hashmap_get m.buttons name with
  | some b0 =>
      rw [hg] at h
      simp only [Except.ok.injEq, Prod.mk.injEq] at h
      obtain ⟨h1, h2⟩ := h
      rw [← h1, ← h2]
      exact hg
  | none =>
      rw [hg] at h
      cases ha : a with
      | false => rw [ha] at h; simp at h
      | true =>
          rw [ha] at h
          simp only [if_true, Except.ok.injEq, Prod.mk.injEq] at h
          obtain ⟨h1, h2⟩ := h
          rw [← h1, ← h2]
          exact hashmap_get_insert_self m.buttons name _

/-! ### Fixtures -/

def emptyManager : Manager :=
  { devices := [], seats := [], sessions := [], users := [],
    inhibitors := [], buttons := [], busnames := [], seat_gc_queue := [],
    kill_user_processes := false, kill_exclude_users := [],
    kill_only_users := [] }

/-- The stored device after an OR-folding upsert: master raised by `b`,
everything else untouched. -/
def device_bump (d : Device) (b : Bool) : Device :=
  { d with master := d.master || b }

def dDev1 : Device := device_new "dev0" false

def mDev1 : Manager := { emptyManager with devices := [("dev0", dDev1)] }

def sSeat1 : Seat := seat_new "seatA"

def mSeat1 : Manager := { emptyManager with seats := [("seatA", sSeat1)] }

def sSess1 : Session := session_new "c1"

def mSess1 : Manager := { emptyManager with sessions := [("c1", sSess1)] }

def uUser1 : User := user_new 1000 1000 "alice"

def mUser1 : Manager := { emptyManager with users := [(1000, uUser1)] }

def iInh1 : Inhibitor := inhibitor_new "i1"

def mInh1 : Manager := { emptyManager with inhibitors := [("i1", iInh1)] }

def bBtn1 : Button := button_new "LID0"

def mBtn1 : Manager := { emptyManager with buttons := [("LID0", bBtn1)] }

/-- C1: for every entity registry, a second `add` with the same key
returns the stored entity without error; for the device registry the
stored master flag after any sequence of `manager_add_device` calls on
a fresh sysfs path is the OR of all the master arguments (raised, never
cleared), while the other registries ignore the construction parameters
of calls after the first (for users, the gid and name of a later call
are irrelevant). -/
theorem C1_registry_upsert_idempotent :
    (∀ (m : Manager) (a a2 : Bool) (sysfs : String) (b1 b2 : Bool)
        (m1 : Manager) (d1 : Device),
        manager_add_device m a sysfs b1 = .ok (m1, d1) →
        manager_add_device m1 a2 sysfs b2 =
          .ok ({ m1 with devices :=
                  hashmap_set m1.devices sysfs (device_bump d1 b2) },
               device_bump d1 b2))
    ∧ (∀ (m : Manager) (sysfs : String) (b : Bool) (bs : List Bool),
        hashmap_get m.devices sysfs = none →
        hashmap_get (add_device_seq m sysfs (b :: bs)).devices sysfs =
          some { sysfs := sysfs, master := bs.foldl (· || ·) b,
                 seat := none })
    ∧ (∀ (m : Manager) (a a2 : Bool) (id : String) (m1 : Manager) (s : Seat),
        manager_add_seat m a id = .ok (m1, s) →
        manager_add_seat m1 a2 id = .ok (m1, s))
    ∧ (∀ (m : Manager) (a a2 : Bool) (id : String) (m1 : Manager)
        (s : Session),
        manager_add_session m a id = .ok (m1, s) →
        manager_add_session m1 a2 id = .ok (m1, s))
    ∧ (∀ (m : Manager) (a a2 : Bool) (uid gid gid2 : Nat)
        (name name2 : String) (m1 : Manager) (u : User),
        manager_add_user m a uid gid name = .ok (m1, u) →
        manager_add_user m1 a2 uid gid2 name2 = .ok (m1, u))
    ∧ (∀ (m : Manager) (a a2 : Bool) (id : String) (m1 : Manager)
        (i : Inhibitor),
        manager_add_inhibitor m a id = .ok (m1, i) →
        manager_add_inhibitor m1 a2 id = .ok (m1, i))
    ∧ (∀ (m : Manager) (a a2 : Bool) (name : String) (m1 : Manager)
        (b : Button),
        manager_add_button m a name = .ok (m1, b) →
        manager_add_button m1 a2 name = .ok (m1, b)) := by
  refine ⟨?_, ?_, ?_, ?_, ?_, ?_, ?_⟩
  · intro m a a2 sysfs b1 b2 m1 d1 h
    have hg := manager_add_device_get m a sysfs b1 m1 d1 h
    exact manager_add_device_get_some m1 a2 sysfs b2 d1 hg
  · intro m sysfs b bs h
    have h1 : manager_add_device m true sysfs b =
        .ok ({ m with devices :=
                hashmap_insert m.devices sysfs (device_new sysfs b) },
             device_new sysfs b) := by
      unfold manager_add_device
      rw [h]
      rfl
    have hstep : add_device_seq m sysfs (b :: bs) =
        add_device_seq
          { m with devices :=
              hashmap_insert m.devices sysfs (device_new sysfs b) }
          sysfs bs := by
      simp only [add_device_seq, h1]
    rw [hstep]
    have hget : hashmap_get
        ({ m with devices :=
            hashmap_insert m.devices sysfs (device_new sysfs b) } :
          Manager).devices sysfs = some (device_new sysfs b) :=
      hashmap_get_insert_self m.devices sysfs _
    have hfin := add_device_seq_get_some sysfs bs
      { m with devices :=
          hashmap_insert m.devices sysfs (device_new sysfs b) }
      (device_new sysfs b) hget
    simpa [device_new] using hfin
  · intro m a a2 id m1 s h
    have hg := manager_add_seat_get m a id m1 s h
    unfold manager_add_seat
    rw [hg]
  · intro m a a2 id m1 s h
    have hg := manager_add_session_get m a id m1 s h
    unfold manager_add_session
    rw [hg]
  · intro m a a2 uid gid gid2 name name2 m1 u h
    have hg := manager_add_user_get m a uid gid name m1 u h
    unfold manager_add_user
    rw [hg]
  · intro m a a2 id m1 i h
    have hg := manager_add_inhibitor_get m a id m1 i h
    unfold manager_add_inhibitor
    rw [hg]
  · intro m a a2 name m1 b h
    have hg := manager_add_button_get m a name m1 b h
    unfold manager_add_button
    rw [hg]

/-- Witness for C1 at concrete registries. -/
theorem C1_registry_upsert_idempotent_witness :
    (manager_add_device emptyManager true "dev0" false = .ok (mDev1, dDev1))
    ∧ manager_add_device mDev1 true "dev0" true =
        .ok ({ mDev1 with devices :=
                hashmap_set mDev1.devices "dev0" (device_bump dDev1 true) },
             device_bump dDev1 true)
    ∧ hashmap_get emptyManager.devices "dev0" = none
    ∧ hashmap_get
        (add_device_seq emptyManager "dev0" [false, true, false]).devices
        "dev0" =
        some { sysfs := "dev0", master := [true, false].foldl (· || ·) false,
               seat := none }
    ∧ manager_add_seat emptyManager true "seatA" = .ok (mSeat1, sSeat1)
    ∧ manager_add_seat mSeat1 false "seatA" = .ok (mSeat1, sSeat1)
    ∧ manager_add_session emptyManager true "c1" = .ok (mSess1, sSess1)
    ∧ manager_add_session mSess1 false "c1" = .ok (mSess1, sSess1)
    ∧ manager_add_user emptyManager true 1000 1000 "alice" =
        .ok (mUser1, uUser1)
    ∧ manager_add_user mUser1 false 1000 2000 "bob" = .ok (mUser1, uUser1)
    ∧ manager_add_inhibitor emptyManager true "i1" = .ok (mInh1, iInh1)
    ∧ manager_add_inhibitor mInh1 false "i1" = .ok (mInh1, iInh1)
    ∧ manager_add_button emptyManager true "LID0" = .ok (mBtn1, bBtn1)
    ∧ manager_add_button mBtn1 false "LID0" = .ok (mBtn1, bBtn1) :=
  ⟨rfl,
   C1_registry_upsert_idempotent.1 emptyManager true true "dev0" false true
     mDev1 dDev1 rfl,
   rfl,
   C1_registry_upsert_idempotent.2.1 emptyManager "dev0" false [true, false]
     rfl,
   rfl,
   C1_registry_upsert_idempotent.2.2.1 emptyManager true false "seatA"
     mSeat1 sSeat1 rfl,
   rfl,
   C1_registry_upsert_idempotent.2.2.2.1 emptyManager true false "c1"
     mSess1 sSess1 rfl,
   rfl,
   C1_registry_upsert_idempotent.2.2.2.2.1 emptyManager true false 1000 1000
     2000 "alice" "bob" mUser1 uUser1 rfl,
   rfl,
   C1_registry_upsert_idempotent.2.2.2.2.2.1 emptyManager true false "i1"
     mInh1 iInh1 rfl,
   rfl,
   C1_registry_upsert_idempotent.2.2.2.2.2.2 emptyManager true false "LID0"
     mBtn1 bBtn1 rfl⟩

/-! ### Idle-hint fixtures -/

def sIdle10 : Session :=
  { id := "s10", user := 0, controller := none, idle_rc := 1,
    idle_ts := ⟨10, 10⟩ }

def sIdle20 : Session :=
  { id := "s20", user := 0, controller := none, idle_rc := 1,
    idle_ts := ⟨20, 20⟩ }

def sBusy15 : Session :=
  { id := "b15", user := 0, controller := none, idle_rc := 0,
    idle_ts := ⟨15, 15⟩ }

def sErr5 : Session :=
  { id := "e5", user := 0, controller := none, idle_rc := -5,
    idle_ts := ⟨0, 0⟩ }

/-- A manager holding exactly the given sessions and nothing else. -/
def mIdle (l : List Session) : Manager :=
  { emptyManager with sessions := l.map (fun s => (s.id, s)) }

/-- C2: the idle-hint fold starts from the negation of the idle/block
inhibition with timestamp 0 and updates per session by the four rules
(later timestamp when both idle; flip and adopt when going busy;
earlier timestamp when both busy; ignore an idle session when already
busy); the spec's concrete aggregates hold in every iteration order. -/
theorem C2_idle_hint_fold :
    (∀ (m : Manager),
        manager_get_idle_hint m =
          manager_get_idle_hint_loop (m.sessions.map (·.2))
            (!(manager_is_inhibited m INHIBIT_IDLE INHIBIT_BLOCK))
            DUAL_TIMESTAMP_NULL)
    ∧ (∀ (s : Session) (rest : List Session) (ts : DualTimestamp),
        0 < s.idle_rc →
        manager_get_idle_hint_loop (s :: rest) true ts =
          manager_get_idle_hint_loop rest true
            (if ts.monotonic < s.idle_ts.monotonic then s.idle_ts else ts))
    ∧ (∀ (s : Session) (rest : List Session) (ts : DualTimestamp),
        s.idle_rc = 0 →
        manager_get_idle_hint_loop (s :: rest) true ts =
          manager_get_idle_hint_loop rest false s.idle_ts)
    ∧ (∀ (s : Session) (rest : List Session) (ts : DualTimestamp),
        s.idle_rc = 0 →
        manager_get_idle_hint_loop (s :: rest) false ts =
          manager_get_idle_hint_loop rest false
            (if s.idle_ts.monotonic < ts.monotonic then s.idle_ts else ts))
    ∧ (∀ (s : Session) (rest : List Session) (ts : DualTimestamp),
        0 < s.idle_rc →
        manager_get_idle_hint_loop (s :: rest) false ts =
          manager_get_idle_hint_loop rest false ts)
    ∧ manager_get_idle_hint (mIdle [sIdle10, sIdle20]) = .ok (true, ⟨20, 20⟩)
    ∧ manager_get_idle_hint (mIdle [sIdle20, sIdle10]) = .ok (true, ⟨20, 20⟩)
    ∧ manager_get_idle_hint (mIdle [sIdle10, sIdle20, sBusy15]) =
        .ok (false, ⟨15, 15⟩)
    ∧ manager_get_idle_hint (mIdle [sIdle10, sBusy15, sIdle20]) =
        .ok (false, ⟨15, 15⟩)
    ∧ manager_get_idle_hint (mIdle [sIdle20, sIdle10, sBusy15]) =
        .ok (false, ⟨15, 15⟩)
    ∧ manager_get_idle_hint (mIdle [sIdle20, sBusy15, sIdle10]) =
        .ok (false, ⟨15, 15⟩)
    ∧ manager_get_idle_hint (mIdle [sBusy15, sIdle10, sIdle20]) =
        .ok (false, ⟨15, 15⟩)
    ∧ manager_get_idle_hint (mIdle [sBusy15, sIdle20, sIdle10]) =
        .ok (false, ⟨15, 15⟩) := by
  refine ⟨fun m => rfl, ?_, ?_, ?_, ?_, rfl, rfl, rfl, rfl, rfl, rfl, rfl,
    rfl⟩
  · intro s rest ts h
    have h1 : ¬ (s.idle_rc < 0) := by omega
    have h2 : (s.idle_rc == 0) = false := by
      rw [beq_eq_false_iff_ne]
      omega
    simp only [manager_get_idle_hint_loop, session_get_idle_hint, idle_step,
      h2, if_neg h1, Bool.false_eq_true, if_false]
    by_cases hc : ts.monotonic < s.idle_ts.monotonic
    · simp [hc]
    · simp [hc, not_lt.mp hc]
  · intro s rest ts h
    have h1 : ¬ (s.idle_rc < 0) := by omega
    have h2 : (s.idle_rc == 0) = true := by simp [h]
    simp [manager_get_idle_hint_loop, session_get_idle_hint, idle_step,
      h2, if_neg h1]
  · intro s rest ts h
    have h1 : ¬ (s.idle_rc < 0) := by omega
    have h2 : (s.idle_rc == 0) = true := by simp [h]
    simp only [manager_get_idle_hint_loop, session_get_idle_hint, idle_step,
      h2, if_neg h1, Bool.not_false, if_true]
    by_cases hc : s.idle_ts.monotonic < ts.monotonic
    · simp [hc]
    · simp [hc]
  · intro s rest ts h
    have h1 : ¬ (s.idle_rc < 0) := by omega
    have h2 : (s.idle_rc == 0) = false := by
      rw [beq_eq_false_iff_ne]
      omega
    simp [manager_get_idle_hint_loop, session_get_idle_hint, idle_step,
      h2, if_neg h1]

/-- Witness for C2's conditional fold rules at concrete inputs. -/
theorem C2_idle_hint_fold_witness :
    (0 : Int) < sIdle10.idle_rc
    ∧ sBusy15.idle_rc = 0
    ∧ manager_get_idle_hint_loop [sIdle10] true ⟨0, 0⟩ =
        manager_get_idle_hint_loop [] true
          (if (0 : Nat) < sIdle10.idle_ts.monotonic then sIdle10.idle_ts
           else ⟨0, 0⟩)
    ∧ manager_get_idle_hint_loop [sBusy15] true ⟨0, 0⟩ =
        manager_get_idle_hint_loop [] false sBusy15.idle_ts
    ∧ manager_get_idle_hint_loop [sBusy15] false ⟨20, 20⟩ =
        manager_get_idle_hint_loop [] false
          (if sBusy15.idle_ts.monotonic < (20 : Nat) then sBusy15.idle_ts
           else ⟨20, 20⟩)
    ∧ manager_get_idle_hint_loop [sIdle10] false ⟨15, 15⟩ =
        manager_get_idle_hint_loop [] false ⟨15, 15⟩ :=
  ⟨by decide, by decide,
   C2_idle_hint_fold.2.1 sIdle10 [] ⟨0, 0⟩ (by decide),
   C2_idle_hint_fold.2.2.1 sBusy15 [] ⟨0, 0⟩ (by decide),
   C2_idle_hint_fold.2.2.2.1 sBusy15 [] ⟨20, 20⟩ (by decide),
   C2_idle_hint_fold.2.2.2.2.1 sIdle10 [] ⟨15, 15⟩ (by decide)⟩

/-! ### C10: error abort in the idle-hint aggregation -/

theorem idle_loop_error (s : Session) (post : List Session)
    (hs : s.idle_rc < 0) :
    ∀ (pre : List Session) (idle : Bool) (ts : DualTimestamp),
      (∀ s2 ∈ pre, 0 ≤ s2.idle_rc) →
      manager_get_idle_hint_loop (pre ++ s :: post) idle ts =
        .error s.idle_rc := by
  intro pre
  induction pre with
  | nil =>
      intro idle ts _
      simp [manager_get_idle_hint_loop, session_get_idle_hint, hs]
  | cons p t ih =>
      intro idle ts hpre
      have hp : 0 ≤ p.idle_rc := hpre p (by simp)
      have h1 : ¬ (p.idle_rc < 0) := by omega
      simp only [List.cons_append, manager_get_idle_hint_loop,
        session_get_idle_hint, if_neg h1]
      exact ih _ _ (fun s2 hmem => hpre s2 (by simp [hmem]))

/-- C10: when some session's idle-hint query fails, the aggregation is
aborted with that session's negative code (and, in the embedding, the
error branch carries no timestamp — the out-parameter stays
unwritten). -/
theorem C10_idle_hint_error_abort (m : Manager) (pre post : List Session)
    (s : Session) (hsplit : m.sessions.map (·.2) = pre ++ s :: post)
    (hpre : ∀ s2 ∈ pre, 0 ≤ s2.idle_rc) (hs : s.idle_rc < 0) :
    manager_get_idle_hint m = .error s.idle_rc := by
  unfold manager_get_idle_hint
  rw [hsplit]
  exact idle_loop_error s post hs pre _ _ hpre

/-- Witness for C10: a failing session after a healthy one aborts the
aggregation with its error code. -/
theorem C10_idle_hint_error_abort_witness :
    sErr5.idle_rc < 0
    ∧ manager_get_idle_hint (mIdle [sIdle10, sErr5]) = .error (-5) :=
  ⟨by decide,
   C10_idle_hint_error_abort (mIdle [sIdle10, sErr5]) [sIdle10] [] sErr5
     rfl (by decide) (by decide)⟩

/-! ### C3: VT-busy probe -/

/-- VT environment whose state ioctl yields `v_state = 0b0000_1010`. -/
def vtEnv10 : VTEnv := { open_tty1 := .ok (), vt_getstate := .ok 10 }

/-- C3 counterexample: with `v_state = 0b0000_1010` (bits 1 and 3 set)
the probe reports VT 2 as NOT busy and VT 1 as busy — the claim's
expected values for VT 2 (true) and VT 1 (false) are wrong. -/
theorem C3_vt_is_busy_counterexample :
    vt_is_busy vtEnv10 3 = 1 ∧ vt_is_busy vtEnv10 2 = 0
      ∧ vt_is_busy vtEnv10 1 = 1 ∧
      ¬ (vt_is_busy vtEnv10 2 = 1 ∧ vt_is_busy vtEnv10 1 = 0) := by
  refine ⟨rfl, rfl, rfl, ?_⟩
  intro h
  exact absurd (rfl.symm.trans h.1) (by decide)

/-- C3 amended: for any VT number, when open and ioctl succeed the
probe returns bit `n` of the in-use mask; at `v_state = 0b0000_1010`
VT 3 is busy, VT 2 is not, and VT 1 is. -/
theorem C3_vt_is_busy_bit :
    (∀ (env : VTEnv) (n v : Nat), env.open_tty1 = .ok () →
        env.vt_getstate = .ok v →
        vt_is_busy env n = if v.testBit n then 1 else 0)
    ∧ vt_is_busy vtEnv10 3 = 1 ∧ vt_is_busy vtEnv10 2 = 0
    ∧ vt_is_busy vtEnv10 1 = 1 := by
  refine ⟨?_, rfl, rfl, rfl⟩
  intro env n v ho hi
  unfold vt_is_busy
  rw [ho, hi]
  show (if (v &&& 1 <<< n != 0) = true then (1 : Int) else 0) = _
  have h1 : (1 : Nat) <<< n = 2 ^ n := by
    rw [Nat.shiftLeft_eq, one_mul]
  rw [h1, Nat.and_two_pow]
  cases ht : v.testBit n with
  | true => simp [ht, Nat.pos_iff_ne_zero.mp (Nat.two_pow_pos n)]
  | false => simp [ht]

/-- Witness for C3's amended general statement at the concrete mask. -/
theorem C3_vt_is_busy_bit_witness :
    vtEnv10.open_tty1 = .ok () ∧ vtEnv10.vt_getstate = .ok 10
    ∧ vt_is_busy vtEnv10 3 = if (10 : Nat).testBit 3 then 1 else 0 :=
  ⟨rfl, rfl, C3_vt_is_busy_bit.1 vtEnv10 3 10 rfl rfl⟩

/-! ### C4 and C5: seat-device processing -/

/-- C4: when a non-remove event for an unknown seat reaches seat
creation and it fails after a fresh device upsert, the device (which
then has no seat) is freed and the registries end exactly as before
the event. -/
theorem C4_seat_rollback (m : Manager) (d : UdevDevice)
    (hact : (d.action == some "remove") = false)
    (hvalid : seat_name_is_valid (resolve_seat_name d) = true)
    (hseat : hashmap_get m.seats (resolve_seat_name d) = none)
    (hmaster : udev_device_has_tag d "master-of-seat" = true)
    (hfresh : hashmap_get m.devices d.syspath = none) :
    manager_process_seat_device m true false d = (-ENOMEM, m) := by
  have hrm : hashmap_remove
      (hashmap_insert m.devices d.syspath (device_new d.syspath true))
      d.syspath = m.devices := by
    have ht := hashmap_remove_of_get_none m.devices d.syspath hfresh
    simp only [hashmap_remove, hashmap_insert, List.filter_cons,
      beq_self_eq_true, Bool.not_true, Bool.false_eq_true, if_false] at ht ⊢
    exact ht
  simp only [manager_process_seat_device, manager_add_device,
    manager_add_seat, device_free, hact, hvalid, hseat, hmaster, hfresh,
    Bool.false_eq_true, Bool.not_true, Bool.false_and, if_false, if_true,
    Option.isNone_none, device_new]
  simp only [device_new] at hrm
  simp [hrm]

/-- Witness for C4: a master device event for an unknown seat with
failing seat allocation leaves the empty manager untouched. -/
theorem C4_seat_rollback_witness :
    manager_process_seat_device emptyManager true false
      { action := some "add", syspath := "/sys/card0", sysname := "card0",
        properties := [("ID_SEAT", "seatA")], tags := ["master-of-seat"] } =
      (-ENOMEM, emptyManager) :=
  C4_seat_rollback emptyManager
    { action := some "add", syspath := "/sys/card0", sysname := "card0",
      properties := [("ID_SEAT", "seatA")], tags := ["master-of-seat"] }
    rfl rfl rfl rfl rfl

/-- C5: a non-remove event whose resolved seat is unknown and whose
tags lack `master-of-seat` is dropped: return 0 and no registry
change (this also covers invalid seat names). -/
theorem C5_nonmaster_unknown_seat_dropped (m : Manager) (d : UdevDevice)
    (da sa : Bool) (hact : (d.action == some "remove") = false)
    (hseat : hashmap_get m.seats (resolve_seat_name d) = none)
    (hmaster : udev_device_has_tag d "master-of-seat" = false) :
    manager_process_seat_device m da sa d = (0, m) := by
  simp only [manager_process_seat_device, hact, Bool.false_eq_true,
    if_false, hseat, hmaster, Option.isNone_none, Bool.not_false,
    Bool.and_true]
  cases hv : seat_name_is_valid (resolve_seat_name d) <;> simp [hv]

/-- Witness for C5: a tag-less device event naming an unknown seat
leaves the empty manager untouched with return code 0. -/
theorem C5_nonmaster_unknown_seat_dropped_witness :
    manager_process_seat_device emptyManager true true
      { action := some "add", syspath := "/sys/input7", sysname := "input7",
        properties := [("ID_SEAT", "seatZ")], tags := [] } =
      (0, emptyManager) :=
  C5_nonmaster_unknown_seat_dropped emptyManager
    { action := some "add", syspath := "/sys/input7", sysname := "input7",
      properties := [("ID_SEAT", "seatZ")], tags := [] }
    true true rfl rfl rfl

/-! ### C6: kill policy -/

def mKill : Manager :=
  { emptyManager with
      kill_user_processes := true
      kill_exclude_users := ["root"]
      kill_only_users := ["alice"] }

/-- C6: `manager_shall_kill` is the conjunction of the master switch,
non-exclusion, and (empty allow-list or allow-list membership); the
spec's concrete matrix holds. -/
theorem C6_shall_kill :
    (∀ (m : Manager) (u : String),
        manager_shall_kill m u =
          (m.kill_user_processes && !(strv_contains m.kill_exclude_users u)
            && (strv_isempty m.kill_only_users
                || strv_contains m.kill_only_users u)))
    ∧ manager_shall_kill mKill "root" = false
    ∧ manager_shall_kill mKill "alice" = true
    ∧ manager_shall_kill mKill "bob" = false := by
  refine ⟨?_, rfl, rfl, rfl⟩
  intro m u
  unfold manager_shall_kill
  cases hk : m.kill_user_processes <;>
    cases he : strv_contains m.kill_exclude_users u <;>
      cases ho : strv_isempty m.kill_only_users <;> simp [hk, he, ho]

/-! ### C7: process-to-session resolution -/

def cgErr3 : Int → Except Int String := fun _ => .error (-3)

def cgOkC1 : Int → Except Int String := fun _ => .ok "c1"

/-- For a valid pid the session lookup yields `(0, none)` or `(1, some s)`. -/
theorem manager_get_session_by_pid_shape (m : Manager)
    (cg : Int → Except Int String) (pid : Int) (hp : ¬ pid < 1) :
    manager_get_session_by_pid m cg pid = (0, none) ∨
      ∃ s, manager_get_session_by_pid m cg pid = (1, some s) := by
  unfold manager_get_session_by_pid
  rw [if_neg hp]
  cases hcg : cg pid with
  | error e => left; rfl
  | ok name =>
      show (match hashmap_get m.sessions name with
            | none => ((0 : Int), (none : Option Session))
            | some s => (1, some s)) = (0, none) ∨
          ∃ s, (match hashmap_get m.sessions name with
            | none => ((0 : Int), (none : Option Session))
            | some s2 => (1, some s2)) = (1, some s)
      cases hg : hashmap_get m.sessions name with
      | none => left; rfl
      | some s => right; exact ⟨s, rfl⟩

/-- C7: the session lookup returns a negative code exactly for
`pid < 1`; classifier failure and unknown session ids yield 0 without
error; a registered id yields 1 and the session; the user lookup
returns the same code and maps the session to its user. -/
theorem C7_session_user_by_pid :
    (∀ (m : Manager) (cg : Int → Except Int String) (pid : Int),
        ((manager_get_session_by_pid m cg pid).1 < 0 ↔ pid < 1))
    ∧ (∀ (m : Manager) (cg : Int → Except Int String) (pid e : Int),
        1 ≤ pid → cg pid = .error e →
        manager_get_session_by_pid m cg pid = (0, none))
    ∧ (∀ (m : Manager) (cg : Int → Except Int String) (pid : Int)
        (name : String), 1 ≤ pid → cg pid = .ok name →
        hashmap_get m.sessions name = none →
        manager_get_session_by_pid m cg pid = (0, none))
    ∧ (∀ (m : Manager) (cg : Int → Except Int String) (pid : Int)
        (name : String) (s : Session), 1 ≤ pid → cg pid = .ok name →
        hashmap_get m.sessions name = some s →
        manager_get_session_by_pid m cg pid = (1, some s))
    ∧ (∀ (m : Manager) (cg : Int → Except Int String) (pid : Int),
        manager_get_user_by_pid m cg pid =
          ((manager_get_session_by_pid m cg pid).1,
           (manager_get_session_by_pid m cg pid).2.map Session.user)) := by
  refine ⟨?_, ?_, ?_, ?_, ?_⟩
  · intro m cg pid
    by_cases hp : pid < 1
    · have hs : manager_get_session_by_pid m cg pid = (-EINVAL, none) := by
        unfold manager_get_session_by_pid
        rw [if_pos hp]
      rw [hs]
      exact ⟨fun _ => hp, fun _ => by decide⟩
    · rcases manager_get_session_by_pid_shape m cg pid hp with h0 | ⟨s, h0⟩
          <;> rw [h0] <;> simp [hp]
  · intro m cg pid e hp hcg
    unfold manager_get_session_by_pid
    rw [if_neg (by omega), hcg]
  · intro m cg pid name hp hcg hget
    unfold manager_get_session_by_pid
    rw [if_neg (by omega), hcg]
    show (match hashmap_get m.sessions name with
          | none => ((0 : Int), (none : Option Session))
          | some s => (1, some s)) = (0, none)
    rw [hget]
  · intro m cg pid name s hp hcg hget
    unfold manager_get_session_by_pid
    rw [if_neg (by omega), hcg]
    show (match hashmap_get m.sessions name with
          | none => ((0 : Int), (none : Option Session))
          | some s2 => (1, some s2)) = (1, some s)
    rw [hget]
  · intro m cg pid
    unfold manager_get_user_by_pid
    by_cases hp : pid < 1
    · have hs : manager_get_session_by_pid m cg pid = (-EINVAL, none) := by
        unfold manager_get_session_by_pid
        rw [if_pos hp]
      rw [hs]
      norm_num [EINVAL]
    · rcases manager_get_session_by_pid_shape m cg pid hp with h0 | ⟨s, h0⟩
          <;> rw [h0] <;> norm_num

/-- Witness for C7: the three non-error outcomes and the error code at
concrete inputs. -/
theorem C7_session_user_by_pid_witness :
    ((manager_get_session_by_pid emptyManager cgOkC1 0).1 < 0 ↔
      (0 : Int) < 1)
    ∧ manager_get_session_by_pid emptyManager cgErr3 2 = (0, none)
    ∧ manager_get_session_by_pid emptyManager cgOkC1 2 = (0, none)
    ∧ manager_get_session_by_pid mSess1 cgOkC1 2 = (1, some sSess1)
    ∧ manager_get_user_by_pid mSess1 cgOkC1 2 =
        ((manager_get_session_by_pid mSess1 cgOkC1 2).1,
         (manager_get_session_by_pid mSess1 cgOkC1 2).2.map Session.user) :=
  ⟨C7_session_user_by_pid.1 emptyManager cgOkC1 0,
   C7_session_user_by_pid.2.1 emptyManager cgErr3 2 (-3) (by decide) rfl,
   C7_session_user_by_pid.2.2.1 emptyManager cgOkC1 2 "c1" (by decide) rfl
     rfl,
   C7_session_user_by_pid.2.2.2.1 mSess1 cgOkC1 2 "c1" sSess1 (by decide)
     rfl rfl,
   C7_session_user_by_pid.2.2.2.2 mSess1 cgOkC1 2⟩

/-! ### C8: bus-name watches -/

theorem filter_ne_contains_self (l : List String) (name : String) :
    (l.filter (fun x => !(x == name))).contains name = false := by
  induction l with
  | nil => rfl
  | cons a t ih =>
      cases hb : (a == name) with
      | true =>
          simp only [List.filter_cons, hb, Bool.not_true, Bool.false_eq_true,
            if_false]
          exact ih
      | false =>
          have hb2 := beq_flip_false hb
          simp only [List.filter_cons, hb, Bool.not_false, if_true,
            List.contains_cons, hb2, Bool.false_or]
          exact ih

theorem filter_ne_contains_other (l : List String) (name x : String)
    (hx : ¬ (x = name)) :
    (l.filter (fun x2 => !(x2 == name))).contains x = l.contains x := by
  induction l with
  | nil => rfl
  | cons a t ih =>
      cases hb : (a == name) with
      | true =>
          have ha : a = name := eq_of_beq hb
          have hxa : (x == a) = false := by
            rw [beq_eq_false_iff_ne]
            rw [ha]
            exact hx
          simp only [List.filter_cons, hb, Bool.not_true, Bool.false_eq_true,
            if_false, List.contains_cons, hxa, Bool.false_or]
          exact ih
      | false =>
          simp only [List.filter_cons, hb, Bool.not_false, if_true,
            List.contains_cons]
          rw [ih]

def sCtl : Session :=
  { id := "sc", user := 0, controller := some ":1.42", idle_rc := 0,
    idle_ts := ⟨0, 0⟩ }

def mCtl : Manager :=
  { emptyManager with
      busnames := [":1.42"]
      sessions := [("sc", sCtl)] }

def mNoCtl : Manager := { emptyManager with busnames := [":1.42"] }

/-- C8: watching an already-watched bus name changes nothing and
returns 0; dropping removes the name from the set iff no session holds
it as controller peer, leaving the set untouched otherwise and leaving
every other name's membership unchanged. -/
theorem C8_busname_watch_drop :
    (∀ (m : Manager) (a : Bool) (name : String),
        set_get m.busnames name = true →
        manager_watch_busname m a name = (0, m))
    ∧ (∀ (m : Manager) (name : String),
        m.sessions.any (fun p => session_is_controller p.2 name) = true →
        manager_drop_busname m name = m)
    ∧ (∀ (m : Manager) (name : String),
        m.sessions.any (fun p => session_is_controller p.2 name) = false →
        (manager_drop_busname m name).busnames =
            m.busnames.filter (fun x => !(x == name))
          ∧ (manager_drop_busname m name).busnames.contains name = false
          ∧ ∀ x, ¬ (x = name) →
              (manager_drop_busname m name).busnames.contains x =
                m.busnames.contains x) := by
  refine ⟨?_, ?_, ?_⟩
  · intro m a name h
    unfold manager_watch_busname
    rw [h]
    rfl
  · intro m name h
    unfold manager_drop_busname
    rw [h]
    rfl
  · intro m name h
    unfold manager_drop_busname
    rw [h]
    refine ⟨rfl, filter_ne_contains_self m.busnames name, ?_⟩
    intro x hx
    exact filter_ne_contains_other m.busnames name x hx

/-- Witness for C8: the watch for `":1.42"` is idempotent; the drop is
refused while session `sc` holds the controller and succeeds once no
session does. -/
theorem C8_busname_watch_drop_witness :
    manager_watch_busname mCtl true ":1.42" = (0, mCtl)
    ∧ manager_drop_busname mCtl ":1.42" = mCtl
    ∧ (manager_drop_busname mNoCtl ":1.42").busnames.contains ":1.42" =
        false :=
  ⟨C8_busname_watch_drop.1 mCtl true ":1.42" rfl,
   C8_busname_watch_drop.2.1 mCtl ":1.42" rfl,
   (C8_busname_watch_drop.2.2 mNoCtl ":1.42" rfl).2.1⟩

/-! ### C9: docking / display heuristic -/

/-- The connector filter of the display count. -/
def drm_connector_counts (d : DrmDev) : Bool :=
  d.parentSubsystem == some "drm" && !(d.status == some "disconnected")

theorem count_displays_loop_acc (devs : List DrmDev) :
    ∀ (n : Int), count_displays_loop (devs.map some) n =
      n + ((devs.filter drm_connector_counts).length : Int) := by
  induction devs with
  | nil => intro n; simp [count_displays_loop]
  | cons d t ih =>
      intro n
      cases hp : (d.parentSubsystem == some "drm") with
      | false =>
          simp only [List.map_cons, count_displays_loop, hp, Bool.not_false,
            if_true, List.filter_cons, drm_connector_counts, Bool.false_and,
            Bool.false_eq_true, if_false]
          exact ih n
      | true =>
          cases hs : (d.status == some "disconnected") with
          | true =>
              simp only [List.map_cons, count_displays_loop, hp, hs,
                Bool.not_true, Bool.false_eq_true, if_false, if_true,
                List.filter_cons, drm_connector_counts, Bool.true_and]
              exact ih n
          | false =>
              simp only [List.map_cons, count_displays_loop, hp, hs,
                Bool.not_true, Bool.not_false, Bool.false_eq_true, if_false,
                if_true, List.filter_cons, drm_connector_counts,
                Bool.true_and, List.length_cons]
              rw [ih (n + 1)]
              push_cast
              ring

/-- C9: the lid heuristic is exactly "docked or more than one connected
display"; the display count over a clean enumeration is the number of
connectors whose parent is in the drm subsystem and whose status is not
`disconnected`; an enumeration error with no docked button yields
false. -/
theorem C9_docked_or_multiple_displays :
    (∀ (m : Manager) (enum : Except Int (List (Option DrmDev))),
        manager_is_docked_or_multiple_displays m enum =
          (manager_is_docked m
            || decide (1 < manager_count_displays enum)))
    ∧ (∀ (devs : List DrmDev),
        manager_count_displays (.ok (devs.map some)) =
          ((devs.filter drm_connector_counts).length : Int))
    ∧ (∀ (m : Manager) (e : Int), e < 0 → manager_is_docked m = false →
        manager_is_docked_or_multiple_displays m (.error e) = false) := by
  refine ⟨?_, ?_, ?_⟩
  · intro m enum
    unfold manager_is_docked_or_multiple_displays
    cases hd : manager_is_docked m with
    | true => simp [hd]
    | false =>
        simp only [hd, Bool.false_eq_true, if_false, Bool.false_or]
        by_cases h1 : manager_count_displays enum < 0
        · have h2 : ¬ (1 < manager_count_displays enum) := by omega
          simp [h1, h2]
        · by_cases h2 : 1 < manager_count_displays enum
          · simp [h1, h2]
          · simp [h1, h2]
  · intro devs
    unfold manager_count_displays
    simpa using count_displays_loop_acc devs 0
  · intro m e he hd
    unfold manager_is_docked_or_multiple_displays manager_count_displays
    simp [hd, he]

/-- Witness for C9: a negative enumeration outcome with no docked
button yields false. -/
theorem C9_docked_or_multiple_displays_witness :
    (-5 : Int) < 0 ∧ manager_is_docked emptyManager = false
    ∧ manager_is_docked_or_multiple_displays emptyManager (.error (-5)) =
        false :=
  ⟨by decide, rfl,
   C9_docked_or_multiple_displays.2.2 emptyManager (-5) (by decide) rfl⟩

end Logind
